import Mathlib

/-!
Verification of the glidersim lifting-line code (`Parafoil.py`, `Wing.py`,
`src/pfh/glidersim/quaternion.py`) against its natural-language
specification.

Machine reals are modelled by `ℝ`; NaN-carrying arrays are modelled by
`List (Option ℝ)` with `none` standing for a non-finite entry.  Python code
that can divide by zero or take the square root of a negative number is
embedded through `Option`-valued checked arithmetic.
-/

open Real

namespace Glidersim

noncomputable section

/-! Span discretization (`Phillips.__init__`, Parafoil.py lines 1162-1176).

Python source:
  `K = 50`
  `k = np.arange(K+1)`
  `node_y = (-b/2) * np.cos(k * np.pi / K)`
  `cp_y = (-b/2) * (np.cos(np.pi/(2*K) + k[:-1]*np.pi/K))`
-/

/-- Node formula `node_y[k] = (-b/2) * cos(k*pi/K)`. -/
def nodeY (b : ℝ) (K k : ℕ) : ℝ := -(b / 2) * Real.cos (k * Real.pi / K)

/-- Control-point formula `cp_y[k] = (-b/2) * cos(pi/(2K) + k*pi/K)`. -/
def cpY (b : ℝ) (K k : ℕ) : ℝ :=
  -(b / 2) * Real.cos (Real.pi / (2 * K) + k * Real.pi / K)

/-- List of the K+1 node span positions (`k = np.arange(K+1)` mapped
through `node_y`). -/
def phillipsNodes (b : ℝ) (K : ℕ) : List ℝ := (List.range (K + 1)).map (nodeY b K)

/-- List of the K control-point span positions (`k[:-1]` mapped through
`cp_y`). -/
def phillipsCps (b : ℝ) (K : ℕ) : List ℝ := (List.range K).map (cpY b K)

/-! Anderson discretization and initial circulation proposal
(`Anderson._compute_section_coefs`, Parafoil.py lines 784-798).

Python source:
  `t = np.linspace(0, np.pi, K+1)`
  `y = (-b/2) * cos(t)`
  `Gamma0 = 2*V_inf*S*CL_2d/(np.pi*b)`
  `Gamma_proposal = Gamma0 * np.sin(t)`
-/

/-- Cosine parameter samples `t = np.linspace(0, pi, K+1)`: `t_k = k*pi/K`. -/
def andersonT (K k : ℕ) : ℝ := k * Real.pi / K

/-- Spanwise samples `y = (-b/2) * cos(t)`. -/
def andersonY (b : ℝ) (K k : ℕ) : ℝ := -(b / 2) * Real.cos (andersonT K k)

/-- Constant circulation scale `Gamma0 = 2*V_inf*S*CL_2d/(np.pi*b)`
(independent of the span position). -/
def andersonGamma0 (V_inf S CL_2d b : ℝ) : ℝ :=
  2 * V_inf * S * CL_2d / (Real.pi * b)

/-- Initial proposal `Gamma_proposal = Gamma0 * np.sin(t)`. -/
def andersonGammaProposal (Gamma0 : ℝ) (K k : ℕ) : ℝ :=
  Gamma0 * Real.sin (andersonT K k)

/-! The Anderson relaxation update and iteration loop
(`Anderson._compute_section_coefs`, Parafoil.py lines 900-923; the
identical loop appears in `Anderson2._compute_section_coefs`, lines
1100-1125).

Python source of the loop skeleton:
  `iteration = 0`
  `while True:`
  `    ... D = 0.05`
  `    Gamma = Gamma_proposal + D*(Gamma_new - Gamma_proposal) ...`
  `    iteration += 1`
  `    if iteration > 250:`
  `        break`
  `    Gamma_proposal = Gamma`
-/

/-- Relaxation factor used on a given loop pass.  The source assigns the
literal `D = 0.05` afresh inside every pass, so the factor is the same
constant at every iteration. -/
def andersonOmega (_iteration : ℕ) : ℝ := 5 / 100

/-- One relaxed circulation update (pointwise):
`Gamma = Gamma_proposal + D*(Gamma_new - Gamma_proposal)` with `D = 0.05`. -/
def andersonUpdate (gammaProposal gammaNew : ℝ) : ℝ :=
  gammaProposal + (5 / 100) * (gammaNew - gammaProposal)

/-- The `while True` loop, parameterized by the whole loop body `f` (which
maps the incoming `Gamma_proposal` to the updated `Gamma`).  `iteration` is
the counter: the body runs, the counter is incremented, and the loop breaks
as soon as the counter exceeds 250, returning the value just computed. -/
def andersonLoopAux {α : Type} (f : α → α) (iteration : ℕ) (gammaProposal : α) : α :=
  if 250 < iteration + 1 then f gammaProposal
  else andersonLoopAux f (iteration + 1) (f gammaProposal)
termination_by 251 - iteration
decreasing_by
  simp only [not_lt] at *
  omega

/-- Full solve loop: start with `iteration = 0` and the initial proposal. -/
def andersonSolveLoop {α : Type} (f : α → α) (gammaProposal : α) : α :=
  andersonLoopAux f 0 gammaProposal

/-! Control-point frame vectors (`Phillips.__init__`, Parafoil.py lines
1178-1191).

Python source:
  `sd, cd = sin(dihedral), cos(dihedral)`
  `st, ct = sin(twist), cos(twist)`
  `self.u_s = np.c_[np.zeros_like(self.cps), cd, sd]  # Spanwise`
  `self.u_a = np.c_[ct, st*sd, st*cd]  # Chordwise`
  `self.u_n = np.cross(self.u_a, self.u_s)`
-/

structure Vec3 where
  x : ℝ
  y : ℝ
  z : ℝ

/-- Euclidean dot product on 3-vectors. -/
def dot3 (a b : Vec3) : ℝ := a.x * b.x + a.y * b.y + a.z * b.z

/-- Cross product on 3-vectors (`np.cross`). -/
def cross3 (a b : Vec3) : Vec3 :=
  ⟨a.y * b.z - a.z * b.y, a.z * b.x - a.x * b.z, a.x * b.y - a.y * b.x⟩

/-- Squared Euclidean norm. -/
def normSq (a : Vec3) : ℝ := dot3 a a

/-- Spanwise vector `u_s = (0, cos Γ, sin Γ)`. -/
def u_s (dihedral : ℝ) : Vec3 := ⟨0, Real.cos dihedral, Real.sin dihedral⟩

/-- Chordwise vector `u_a = (cos θ, sin θ * sin Γ, sin θ * cos Γ)`. -/
def u_a (dihedral twist : ℝ) : Vec3 :=
  ⟨Real.cos twist, Real.sin twist * Real.sin dihedral,
    Real.sin twist * Real.cos dihedral⟩

/-- Normal vector `u_n = np.cross(u_a, u_s)`. -/
def u_n (dihedral twist : ℝ) : Vec3 := cross3 (u_a dihedral twist) (u_s dihedral)

/-! NaN handling in the Anderson iteration (Parafoil.py lines 855-876).

Python source:
  `if np.any(np.isnan(alpha_i)): print(...); embed(); input(...)`
  `if np.any(np.isnan(cl)): print(...); embed(); input(...)`
  `if np.any(local_alpha_eff > np.deg2rad(15)): print(...); embed(); input(...)`
Each branch only performs console I/O (an interactive drop); control flow
then continues with the same arrays, and no exception of any kind is
raised.  No DivergenceError class exists anywhere in the repository.
-/

/-- Structured error record the spec asks for; the source never constructs
one. -/
structure DivergenceError where
  controlPoint : ℕ
  iteration : ℕ

/-- Predicate `np.any(np.isnan(xs))` over a NaN-modelled array
(`none` = NaN). -/
def hasNonFinite (xs : List (Option ℝ)) : Bool := xs.any fun v => v.isNone

/-- Model of Parafoil.py lines 868-871: the `cl` NaN check.  The `then`
branch is the interactive `print`/`embed`/`input` drop, which leaves the
solver state untouched; both branches return normally. -/
def andersonClCheck (cl : List (Option ℝ)) : Except DivergenceError Unit :=
  if hasNonFinite cl then Except.ok () else Except.ok ()

open Classical in
/-- Model of Parafoil.py lines 873-876: the large-alpha check
`np.any(local_alpha_eff > np.deg2rad(15))`.  Again both branches return
normally; there is no lower (about -11 degrees) bound anywhere in the
loop. -/
def andersonAlphaCheck (localAlphaEff : List ℝ) : Except DivergenceError Unit :=
  if ∃ a ∈ localAlphaEff, Real.pi * 15 / 180 < a then Except.ok ()
  else Except.ok ()

/-! Local angle of attack in `Phillips.find_vortex_strengths`
(Parafoil.py line 1230).

Python source:
  `alpha = arctan(dot(V_tot, self.u_n), dot(V_tot, self.u_a))`
where `arctan` is the one-argument numpy ufunc `np.arctan` (imported at
line 4), whose second positional parameter is the output buffer, so the
value computed is `arctan(V · u_n)`; the chordwise dot product does not
enter the result. -/

/-- Value computed by the source line: `np.arctan` applied to the first
argument only (the second dot product is consumed as the `out`
parameter). -/
def phillipsAlpha (vn _va : ℝ) : ℝ := Real.arctan vn

open Classical in
/-- Modelled from the spec: the two-argument arctangent
`alpha = atan2(V·normal, V·chordwise)` that the claim (and the cited
Phillips Eq. 9) calls for; not present in the source, which calls the
one-argument `np.arctan`. -/
def atan2 (y x : ℝ) : ℝ :=
  if 0 < x then Real.arctan (y / x)
  else if x < 0 then
    (if 0 ≤ y then Real.arctan (y / x) + Real.pi
     else Real.arctan (y / x) - Real.pi)
  else if 0 < y then Real.pi / 2
  else if y < 0 then -(Real.pi / 2)
  else 0

/-! The simplified non-iterative force path
(`CoefficientsEstimator.section_forces`, Parafoil.py lines 168-232),
embedded for one section.

Python source (scalarized):
  `u = uL`
  `w = wL*cos(Gamma) - vL*sin(Gamma)`
  `alpha = arctan(w/u) + theta`
  `Cl = self.Cl(y, alpha, ...); Cd = ...; Cm = ...`
  `K1 = (rho/2)*(u**2 + w**2); K2 = 1/cos(Gamma)`
  `dL = K1*Cl*c*K2; dD = K1*Cd*c*K2; dm0 = K1*Cm*(c**2)*K2`
  `dF_perp_x = dL*cos(alpha - theta) + dD*sin(alpha - theta)`
  `dF_par_x = dL*sin(alpha - theta) - dD*cos(alpha - theta)`
  `dF_par_y = dF_perp_x * sin(Gamma)`
  `dF_par_z = -dF_perp_x * cos(Gamma)`
  `dM = (0, dm0*cos(Gamma), -dm0*sin(Gamma))`
-/

/-- Uninduced local angle of attack: `alpha = arctan(w/u) + theta` computed
only from the supplied local relative wind `(uL, vL, wL)` and the geometric
dihedral and twist; no circulation or induced-velocity term exists in this
path. -/
def uninducedAlpha (Gamma theta uL vL wL : ℝ) : ℝ :=
  Real.arctan ((wL * Real.cos Gamma - vL * Real.sin Gamma) / uL) + theta

/-- One-section embedding of `section_forces`, abstract in the section
coefficient functions `Cl`, `Cd`, `Cm` (each a function of the local angle
of attack; the brake deflections select which coefficient functions are
passed in).  Returns `(dF, dM)`. -/
def section_forces (Cl Cd Cm : ℝ → ℝ) (Gamma theta c : ℝ)
    (uL vL wL rho : ℝ) : Vec3 × Vec3 :=
  let u := uL
  let w := wL * Real.cos Gamma - vL * Real.sin Gamma
  let alpha := Real.arctan (w / u) + theta
  let cl := Cl alpha
  let cd := Cd alpha
  let cm := Cm alpha
  let K1 := (rho / 2) * (u ^ 2 + w ^ 2)
  let K2 := 1 / Real.cos Gamma
  let dL := K1 * cl * c * K2
  let dD := K1 * cd * c * K2
  let dm0 := K1 * cm * c ^ 2 * K2
  let dF_perp_x := dL * Real.cos (alpha - theta) + dD * Real.sin (alpha - theta)
  let dF_par_x := dL * Real.sin (alpha - theta) - dD * Real.cos (alpha - theta)
  let dF_par_y := dF_perp_x * Real.sin Gamma
  let dF_par_z := -dF_perp_x * Real.cos Gamma
  (⟨dF_par_x, dF_par_y, dF_par_z⟩,
   ⟨0, dm0 * Real.cos Gamma, -(dm0 * Real.sin Gamma)⟩)

/-! Elliptical wing geometry (`EllipticalWing`, Wing.py lines 188-260).

The constructor receives the sweep and dihedral angles in degrees and
stores `deg2rad` of them; the `fx`/`fz`/`fc`/`dfzdy` methods work with the
stored radian values.  Division and square root are embedded as
`Option`-valued checked operations so that a division by zero or a square
root of a negative number yields `none`. -/

/-- Conversion `np.deg2rad`. -/
def deg2rad (d : ℝ) : ℝ := d * Real.pi / 180

structure EllipticalWing where
  dcg : ℝ
  c0 : ℝ
  h0 : ℝ
  dihedralMed : ℝ
  dihedralMax : ℝ
  sweepMed : ℝ
  sweepMax : ℝ
  b : ℝ
  taper : ℝ
  torsion : ℝ

/-- Constructor `EllipticalWing.__init__` (Wing.py 191-202): the four
sweep/dihedral angles and the torsion are given in degrees and converted
with `deg2rad`. -/
def mkEllipticalWing (dcg c0 h0 dihedralMed dihedralMax b taper
    sweepMed sweepMax torsion : ℝ) : EllipticalWing :=
  ⟨dcg, c0, h0, deg2rad dihedralMed, deg2rad dihedralMax,
   deg2rad sweepMed, deg2rad sweepMax, b, taper, deg2rad torsion⟩

/-- Checked square root: fails on a negative argument. -/
def sqrtChecked (x : ℝ) : Option ℝ :=
  if x < 0 then none else some (Real.sqrt x)

/-- Checked division: fails on a zero denominator. -/
def divChecked (a d : ℝ) : Option ℝ :=
  if d = 0 then none else some (a / d)

/-- Checked embedding of `EllipticalWing.fc` (Wing.py 250-253):
`Ac = (b/2)/sqrt(1 - taper**2); Bc = c0; return Bc*sqrt(1 - y**2/Ac**2)`. -/
def fc (w : EllipticalWing) (y : ℝ) : Option ℝ :=
  (sqrtChecked (1 - w.taper ^ 2)).bind fun s =>
  (divChecked (w.b / 2) s).bind fun Ac =>
  (divChecked (y ^ 2) (Ac ^ 2)).bind fun q =>
  (sqrtChecked (1 - q)).map fun rt => w.c0 * rt

/-- Checked embedding of `EllipticalWing.fx` (Wing.py 223-231):
`tMed = tan(sweepMed); tMax = tan(sweepMax);`
`Ax = (b/2)*(1 - tMed/tMax)/sqrt(1 - 2*tMed/tMax);`
`Bx = (b/2)*tMed*(1 - tMed/tMax)/(1 - 2*tMed/tMax);`
`Cx = -Bx + (dcg - 1/4)*c0; return Bx*sqrt(1 - y**2/Ax**2) + Cx`. -/
def fx (w : EllipticalWing) (y : ℝ) : Option ℝ :=
  (divChecked (Real.tan w.sweepMed) (Real.tan w.sweepMax)).bind fun r =>
  (sqrtChecked (1 - 2 * r)).bind fun s =>
  (divChecked (w.b / 2 * (1 - r)) s).bind fun Ax =>
  (divChecked (w.b / 2 * Real.tan w.sweepMed * (1 - r)) (1 - 2 * r)).bind fun Bx =>
  (divChecked (y ^ 2) (Ax ^ 2)).bind fun q =>
  (sqrtChecked (1 - q)).map fun rt => Bx * rt + (-Bx + (w.dcg - 1 / 4) * w.c0)

/-- Checked embedding of `EllipticalWing.fz` (Wing.py 233-241): identical
shape with the dihedral angles and `Cz = -Bz - h0`. -/
def fz (w : EllipticalWing) (y : ℝ) : Option ℝ :=
  (divChecked (Real.tan w.dihedralMed) (Real.tan w.dihedralMax)).bind fun r =>
  (sqrtChecked (1 - 2 * r)).bind fun s =>
  (divChecked (w.b / 2 * (1 - r)) s).bind fun Az =>
  (divChecked (w.b / 2 * Real.tan w.dihedralMed * (1 - r)) (1 - 2 * r)).bind fun Bz =>
  (divChecked (y ^ 2) (Az ^ 2)).bind fun q =>
  (sqrtChecked (1 - q)).map fun rt => Bz * rt + (-Bz - w.h0)

/-- Checked embedding of `EllipticalWing.dfzdy` (Wing.py 243-248), the
dihedral slope: `return Bz * -y / (Az**2 * sqrt(1 - y**2/Az**2))`. -/
def dfzdy (w : EllipticalWing) (y : ℝ) : Option ℝ :=
  (divChecked (Real.tan w.dihedralMed) (Real.tan w.dihedralMax)).bind fun r =>
  (sqrtChecked (1 - 2 * r)).bind fun s =>
  (divChecked (w.b / 2 * (1 - r)) s).bind fun Az =>
  (divChecked (w.b / 2 * Real.tan w.dihedralMed * (1 - r)) (1 - 2 * r)).bind fun Bz =>
  (divChecked (y ^ 2) (Az ^ 2)).bind fun q =>
  (sqrtChecked (1 - q)).bind fun rt =>
  divChecked (Bz * -y) (Az ^ 2 * rt)

/-! Quaternion utilities (`src/pfh/glidersim/quaternion.py`).

Python sources:
  `euler_to_dcm` (lines 20-40): the yaw-pitch-roll direction cosine matrix
  built directly from `euler = [phi, theta, gamma]`;
  `euler_to_quaternion` (lines 63-86): half-angle product formulas
  (Stevens, page 52);
  `quaternion_to_dcm` (lines 89-98):
  `dcm = 2 qv qv.T + (qw**2 - qv.T qv) I - 2 qw skew(qv)`. -/

structure Quat where
  w : ℝ
  x : ℝ
  y : ℝ
  z : ℝ

/-- Vector part `qv` of a quaternion, indexed by `Fin 3`. -/
def qvec (q : Quat) : Fin 3 → ℝ := ![q.x, q.y, q.z]

/-- Function `skew(v)`: the cross-product matrix of a 3-vector. -/
def skew (v : Fin 3 → ℝ) : Matrix (Fin 3) (Fin 3) ℝ :=
  Matrix.of ![![0, -v 2, v 1], ![v 2, 0, -v 0], ![-v 1, v 0, 0]]

/-- Function `euler_to_dcm` for `euler = (phi, theta, gamma)`. -/
def euler_to_dcm (phi theta gamma : ℝ) : Matrix (Fin 3) (Fin 3) ℝ :=
  Matrix.of
    ![![Real.cos theta * Real.cos gamma,
        Real.cos theta * Real.sin gamma,
        -Real.sin theta],
      ![-Real.cos phi * Real.sin gamma +
          Real.sin phi * Real.sin theta * Real.cos gamma,
        Real.cos phi * Real.cos gamma +
          Real.sin phi * Real.sin theta * Real.sin gamma,
        Real.sin phi * Real.cos theta],
      ![Real.sin phi * Real.sin gamma +
          Real.cos phi * Real.sin theta * Real.cos gamma,
        -Real.sin phi * Real.cos gamma +
          Real.cos phi * Real.sin theta * Real.sin gamma,
        Real.cos phi * Real.cos theta]]

/-- Function `euler_to_quaternion`: half-angle product formulas. -/
def euler_to_quaternion (phi theta gamma : ℝ) : Quat :=
  ⟨Real.cos (phi / 2) * Real.cos (theta / 2) * Real.cos (gamma / 2) +
     Real.sin (phi / 2) * Real.sin (theta / 2) * Real.sin (gamma / 2),
   Real.sin (phi / 2) * Real.cos (theta / 2) * Real.cos (gamma / 2) -
     Real.cos (phi / 2) * Real.sin (theta / 2) * Real.sin (gamma / 2),
   Real.cos (phi / 2) * Real.sin (theta / 2) * Real.cos (gamma / 2) +
     Real.sin (phi / 2) * Real.cos (theta / 2) * Real.sin (gamma / 2),
   Real.cos (phi / 2) * Real.cos (theta / 2) * Real.sin (gamma / 2) -
     Real.sin (phi / 2) * Real.sin (theta / 2) * Real.cos (gamma / 2)⟩

/-- Function `quaternion_to_dcm`:
`2 qv qv.T + (qw**2 - qv.T qv) I - 2 qw skew(qv)`. -/
def quaternion_to_dcm (q : Quat) : Matrix (Fin 3) (Fin 3) ℝ :=
  (2 : ℝ) • Matrix.of (fun i j => qvec q i * qvec q j) +
    (q.w ^ 2 - (q.x ^ 2 + q.y ^ 2 + q.z ^ 2)) • (1 : Matrix (Fin 3) (Fin 3) ℝ) -
    (2 * q.w) • skew (qvec q)

end

/-! Helper lemmas -/

lemma andersonLoopAux_eq_iterate {α : Type} (f : α → α) :
    ∀ n i : ℕ, i + n = 250 → ∀ g : α, andersonLoopAux f i g = f^[n + 1] g := by
  intro n
  induction n with
  | zero =>
    intro i hi g
    have : i = 250 := by omega
    subst this
    rw [andersonLoopAux, if_pos (by omega)]
    simp
  | succ n ih =>
    intro i hi g
    rw [andersonLoopAux, if_neg (by omega)]
    rw [ih (i + 1) (by omega) (f g)]
    rw [← Function.iterate_succ_apply]

lemma andersonSolveLoop_eq_iterate {α : Type} (f : α → α) (g : α) :
    andersonSolveLoop f g = f^[251] g := by
  have h := andersonLoopAux_eq_iterate f 250 0 (by omega) g
  have h251 : (250 : ℕ) + 1 = 251 := rfl
  rw [h251] at h
  exact h

lemma succ_iterate_eq (n : ℕ) : ∀ m : ℕ, Nat.succ^[n] m = m + n := by
  induction n with
  | zero => intro m; simp
  | succ n ih =>
    intro m
    rw [Function.iterate_succ_apply, ih (Nat.succ m)]
    omega

lemma dot3_u_a_u_s (G t : ℝ) :
    dot3 (u_a G t) (u_s G) = 2 * Real.sin t * Real.sin G * Real.cos G := by
  simp only [dot3, u_a, u_s]
  ring

lemma normSq_u_s (G : ℝ) : normSq (u_s G) = 1 := by
  simp only [normSq, dot3, u_s]
  linear_combination Real.sin_sq_add_cos_sq G

lemma normSq_u_a (G t : ℝ) : normSq (u_a G t) = 1 := by
  simp only [normSq, dot3, u_a]
  linear_combination (Real.sin t ^ 2) * Real.sin_sq_add_cos_sq G +
    Real.sin_sq_add_cos_sq t

lemma normSq_u_n (G t : ℝ) :
    normSq (u_n G t) = 1 - (2 * Real.sin t * Real.sin G * Real.cos G) ^ 2 := by
  simp only [normSq, dot3, u_n, cross3, u_a, u_s]
  linear_combination (Real.sin t ^ 2 * (Real.sin G ^ 2 + Real.cos G ^ 2 + 1) +
      Real.cos t ^ 2) * Real.sin_sq_add_cos_sq G + Real.sin_sq_add_cos_sq t

lemma divChecked_of_ne (a d : ℝ) (h : d ≠ 0) : divChecked a d = some (a / d) := by
  unfold divChecked
  rw [if_neg h]

lemma sqrtChecked_of_nonneg (x : ℝ) (h : 0 ≤ x) :
    sqrtChecked x = some (Real.sqrt x) := by
  unfold sqrtChecked
  rw [if_neg (not_lt.mpr h)]

lemma tan_sector (a c : ℝ) (ha : 0 < a) (hac : 2 * a < c)
    (hc : c < Real.pi / 2) :
    0 < Real.tan a ∧ 2 * Real.tan a < Real.tan c := by
  have hpi := Real.pi_pos
  have ha2 : a < Real.pi / 2 := by linarith
  have hta : 0 < Real.tan a := Real.tan_pos_of_pos_of_lt_pi_div_two ha ha2
  have hta1 : Real.tan a < 1 := by
    have h4 : a < Real.pi / 4 := by linarith
    have h' := Real.tan_lt_tan_of_nonneg_of_lt_pi_div_two ha.le (by linarith) h4
    rwa [Real.tan_pi_div_four] at h'
  have h2alt : Real.tan (2 * a) < Real.tan c :=
    Real.tan_lt_tan_of_nonneg_of_lt_pi_div_two (by linarith) hc hac
  have htm : 2 * Real.tan a ≤ Real.tan (2 * a) := by
    rw [Real.tan_two_mul]
    have hd : 0 < 1 - Real.tan a ^ 2 := by nlinarith
    rw [le_div_iff₀ hd]
    nlinarith
  exact ⟨hta, by linarith⟩

lemma arc_pipeline (b y tMed tMax : ℝ) (hb : 0 < b) (ht : 0 < tMed)
    (h2 : 2 * tMed < tMax) (hy : |y| ≤ b / 2) :
    tMax ≠ 0 ∧
    0 ≤ 1 - 2 * (tMed / tMax) ∧
    Real.sqrt (1 - 2 * (tMed / tMax)) ≠ 0 ∧
    (1 - 2 * (tMed / tMax)) ≠ 0 ∧
    (b / 2 * (1 - tMed / tMax) / Real.sqrt (1 - 2 * (tMed / tMax))) ^ 2 ≠ 0 ∧
    y ^ 2 / (b / 2 * (1 - tMed / tMax) / Real.sqrt (1 - 2 * (tMed / tMax))) ^ 2
      < 1 := by
  have htMax : 0 < tMax := by linarith
  have hr0 : 0 < tMed / tMax := div_pos ht htMax
  have hr12 : tMed / tMax < 1 / 2 := by
    rw [div_lt_iff₀ htMax]
    linarith
  have h12r : 0 < 1 - 2 * (tMed / tMax) := by linarith
  have hs : 0 < Real.sqrt (1 - 2 * (tMed / tMax)) := Real.sqrt_pos.mpr h12r
  have h1r : 0 < 1 - tMed / tMax := by linarith
  have hlt : Real.sqrt (1 - 2 * (tMed / tMax)) < 1 - tMed / tMax := by
    have hsq : 1 - 2 * (tMed / tMax) < (1 - tMed / tMax) ^ 2 := by nlinarith
    calc Real.sqrt (1 - 2 * (tMed / tMax))
        < Real.sqrt ((1 - tMed / tMax) ^ 2) := Real.sqrt_lt_sqrt h12r.le hsq
      _ = 1 - tMed / tMax := Real.sqrt_sq h1r.le
  have hb2 : 0 < b / 2 := by linarith
  have hA : b / 2 <
      b / 2 * (1 - tMed / tMax) / Real.sqrt (1 - 2 * (tMed / tMax)) := by
    rw [lt_div_iff₀ hs]
    nlinarith
  have hApos :
      0 < b / 2 * (1 - tMed / tMax) / Real.sqrt (1 - 2 * (tMed / tMax)) :=
    lt_trans hb2 hA
  have hy2 : y ^ 2 ≤ (b / 2) ^ 2 := by
    have h := abs_le.mp hy
    nlinarith [h.1, h.2]
  have hA2 : (b / 2) ^ 2 <
      (b / 2 * (1 - tMed / tMax) / Real.sqrt (1 - 2 * (tMed / tMax))) ^ 2 := by
    nlinarith
  refine ⟨ne_of_gt htMax, h12r.le, ne_of_gt hs, ne_of_gt h12r,
    pow_ne_zero 2 (ne_of_gt hApos), ?_⟩
  rw [div_lt_one (pow_pos hApos 2)]
  linarith

lemma fc_isSome (w : EllipticalWing) (y : ℝ) (hb : 0 < w.b)
    (ht0 : 0 < w.taper) (ht1 : w.taper < 1) (hy : |y| ≤ w.b / 2) :
    (fc w y).isSome := by
  have h1 : 0 < 1 - w.taper ^ 2 := by nlinarith
  have hs : 0 < Real.sqrt (1 - w.taper ^ 2) := Real.sqrt_pos.mpr h1
  have hs1 : Real.sqrt (1 - w.taper ^ 2) ≤ 1 :=
    Real.sqrt_le_one.mpr (by nlinarith)
  have hb2 : 0 < w.b / 2 := by linarith
  have hAc : w.b / 2 ≤ w.b / 2 / Real.sqrt (1 - w.taper ^ 2) := by
    rw [le_div_iff₀ hs]
    nlinarith
  have hAcpos : 0 < w.b / 2 / Real.sqrt (1 - w.taper ^ 2) :=
    lt_of_lt_of_le hb2 hAc
  have hy2 : y ^ 2 ≤ (w.b / 2) ^ 2 := by
    have h := abs_le.mp hy
    nlinarith [h.1, h.2]
  have hq : y ^ 2 / (w.b / 2 / Real.sqrt (1 - w.taper ^ 2)) ^ 2 ≤ 1 := by
    rw [div_le_one (pow_pos hAcpos 2)]
    nlinarith
  unfold fc
  rw [sqrtChecked_of_nonneg _ h1.le]
  simp only [Option.some_bind]
  rw [divChecked_of_ne _ _ (ne_of_gt hs)]
  simp only [Option.some_bind]
  rw [divChecked_of_ne _ _ (pow_ne_zero 2 (ne_of_gt hAcpos))]
  simp only [Option.some_bind]
  rw [sqrtChecked_of_nonneg _ (by linarith :
    (0 : ℝ) ≤ 1 - y ^ 2 / (w.b / 2 / Real.sqrt (1 - w.taper ^ 2)) ^ 2)]
  simp

lemma fx_isSome (w : EllipticalWing) (y : ℝ) (hb : 0 < w.b)
    (ht : 0 < Real.tan w.sweepMed)
    (h2 : 2 * Real.tan w.sweepMed < Real.tan w.sweepMax)
    (hy : |y| ≤ w.b / 2) : (fx w y).isSome := by
  obtain ⟨c1, c2, c3, c4, c5, c6⟩ :=
    arc_pipeline w.b y (Real.tan w.sweepMed) (Real.tan w.sweepMax) hb ht h2 hy
  unfold fx
  rw [divChecked_of_ne _ _ c1]
  simp only [Option.some_bind]
  rw [sqrtChecked_of_nonneg _ c2]
  simp only [Option.some_bind]
  rw [divChecked_of_ne _ _ c3]
  simp only [Option.some_bind]
  rw [divChecked_of_ne _ _ c4]
  simp only [Option.some_bind]
  rw [divChecked_of_ne _ _ c5]
  simp only [Option.some_bind]
  rw [sqrtChecked_of_nonneg _ (by linarith :
    (0 : ℝ) ≤ 1 - y ^ 2 / (w.b / 2 * (1 - Real.tan w.sweepMed / Real.tan w.sweepMax) /
      Real.sqrt (1 - 2 * (Real.tan w.sweepMed / Real.tan w.sweepMax))) ^ 2)]
  simp

lemma fz_isSome (w : EllipticalWing) (y : ℝ) (hb : 0 < w.b)
    (ht : 0 < Real.tan w.dihedralMed)
    (h2 : 2 * Real.tan w.dihedralMed < Real.tan w.dihedralMax)
    (hy : |y| ≤ w.b / 2) : (fz w y).isSome := by
  obtain ⟨c1, c2, c3, c4, c5, c6⟩ :=
    arc_pipeline w.b y (Real.tan w.dihedralMed) (Real.tan w.dihedralMax) hb ht h2 hy
  unfold fz
  rw [divChecked_of_ne _ _ c1]
  simp only [Option.some_bind]
  rw [sqrtChecked_of_nonneg _ c2]
  simp only [Option.some_bind]
  rw [divChecked_of_ne _ _ c3]
  simp only [Option.some_bind]
  rw [divChecked_of_ne _ _ c4]
  simp only [Option.some_bind]
  rw [divChecked_of_ne _ _ c5]
  simp only [Option.some_bind]
  rw [sqrtChecked_of_nonneg _ (by linarith :
    (0 : ℝ) ≤ 1 - y ^ 2 / (w.b / 2 * (1 - Real.tan w.dihedralMed / Real.tan w.dihedralMax) /
      Real.sqrt (1 - 2 * (Real.tan w.dihedralMed / Real.tan w.dihedralMax))) ^ 2)]
  simp

lemma dfzdy_isSome (w : EllipticalWing) (y : ℝ) (hb : 0 < w.b)
    (ht : 0 < Real.tan w.dihedralMed)
    (h2 : 2 * Real.tan w.dihedralMed < Real.tan w.dihedralMax)
    (hy : |y| ≤ w.b / 2) : (dfzdy w y).isSome := by
  obtain ⟨c1, c2, c3, c4, c5, c6⟩ :=
    arc_pipeline w.b y (Real.tan w.dihedralMed) (Real.tan w.dihedralMax) hb ht h2 hy
  have hq : (0 : ℝ) <
      1 - y ^ 2 / (w.b / 2 * (1 - Real.tan w.dihedralMed / Real.tan w.dihedralMax) /
        Real.sqrt (1 - 2 * (Real.tan w.dihedralMed / Real.tan w.dihedralMax))) ^ 2 := by
    linarith
  unfold dfzdy
  rw [divChecked_of_ne _ _ c1]
  simp only [Option.some_bind]
  rw [sqrtChecked_of_nonneg _ c2]
  simp only [Option.some_bind]
  rw [divChecked_of_ne _ _ c3]
  simp only [Option.some_bind]
  rw [divChecked_of_ne _ _ c4]
  simp only [Option.some_bind]
  rw [divChecked_of_ne _ _ c5]
  simp only [Option.some_bind]
  rw [sqrtChecked_of_nonneg _ hq.le]
  simp only [Option.some_bind]
  rw [divChecked_of_ne _ _ (mul_ne_zero c5 (ne_of_gt (Real.sqrt_pos.mpr hq)))]
  simp

lemma andersonClCheck_eq_ok (cl : List (Option ℝ)) :
    andersonClCheck cl = Except.ok () := by
  unfold andersonClCheck
  rw [ite_self]

lemma andersonAlphaCheck_eq_ok (alphas : List ℝ) :
    andersonAlphaCheck alphas = Except.ok () := by
  unfold andersonAlphaCheck
  rw [ite_self]

/-! Claim theorems -/

/-- C1 (confirmed): the span discretization produces K+1 nodes and K
control points with cosine spacing: `node_y[k] = -(b/2)*cos(k*pi/K)` for
`k = 0..K` and `cp_y[k] = -(b/2)*cos(pi/(2K) + k*pi/K)` for `k = 0..K-1`. -/
theorem C1_cosine_spacing (b : ℝ) (K k : ℕ) :
    (phillipsNodes b K).length = K + 1 ∧
    (phillipsCps b K).length = K ∧
    (k ≤ K → (phillipsNodes b K)[k]? =
      some (-(b / 2) * Real.cos ((k : ℝ) * Real.pi / (K : ℝ)))) ∧
    (k < K → (phillipsCps b K)[k]? =
      some (-(b / 2) *
        Real.cos (Real.pi / (2 * (K : ℝ)) + (k : ℝ) * Real.pi / (K : ℝ)))) := by
  refine ⟨by simp [phillipsNodes], by simp [phillipsCps], ?_, ?_⟩
  · intro hk
    simp [phillipsNodes, List.getElem?_map,
      List.getElem?_range (by omega : k < K + 1), nodeY]
  · intro hk
    simp [phillipsCps, List.getElem?_map, List.getElem?_range hk, cpY]

/-- Witness for C1 at `b = 1`, `K = 2`, `k = 1`. -/
theorem C1_cosine_spacing_witness :
    (phillipsNodes 1 2).length = 2 + 1 ∧
    (phillipsCps 1 2).length = 2 ∧
    (phillipsNodes 1 2)[1]? =
      some (-((1 : ℝ) / 2) * Real.cos (((1 : ℕ) : ℝ) * Real.pi / ((2 : ℕ) : ℝ))) ∧
    (phillipsCps 1 2)[1]? =
      some (-((1 : ℝ) / 2) *
        Real.cos (Real.pi / (2 * ((2 : ℕ) : ℝ)) +
          ((1 : ℕ) : ℝ) * Real.pi / ((2 : ℕ) : ℝ))) := by
  obtain ⟨h1, h2, h3, h4⟩ := C1_cosine_spacing 1 2 1
  exact ⟨h1, h2, h3 (by omega), h4 (by omega)⟩

/-- C2 counterexample: at dihedral = twist = π/4 the chordwise and
spanwise vectors are not orthogonal (their dot product is √2/2) and the
normal vector does not have unit norm, so the claimed invariant fails. -/
theorem C2_counterexample :
    ¬ (dot3 (u_a (Real.pi / 4) (Real.pi / 4)) (u_s (Real.pi / 4)) = 0 ∧
       normSq (u_n (Real.pi / 4) (Real.pi / 4)) = 1) := by
  rintro ⟨h, -⟩
  rw [dot3_u_a_u_s, Real.sin_pi_div_four, Real.cos_pi_div_four] at h
  have h3 : Real.sqrt 2 * Real.sqrt 2 = 2 := Real.mul_self_sqrt (by norm_num)
  have hv : 2 * (Real.sqrt 2 / 2) * (Real.sqrt 2 / 2) * (Real.sqrt 2 / 2) =
      Real.sqrt 2 / 2 := by
    linear_combination (Real.sqrt 2 / 4) * h3
  rw [hv] at h
  have hs2 : (0 : ℝ) < Real.sqrt 2 := Real.sqrt_pos.mpr (by norm_num)
  linarith

/-- C2 (amended): the spanwise and chordwise vectors always have unit
norm and the normal is orthogonal to both, but chordwise·spanwise equals
`2·sinθ·sinΓ·cosΓ` (hence the three vectors are mutually orthogonal, with a
unit normal, only when `sinθ·sin(2Γ) = 0`, e.g. zero twist or zero
dihedral); the squared norm of the normal is `1 - (2·sinθ·sinΓ·cosΓ)²`. -/
theorem C2_frame_properties (dihedral twist : ℝ) :
    normSq (u_s dihedral) = 1 ∧
    normSq (u_a dihedral twist) = 1 ∧
    dot3 (u_n dihedral twist) (u_a dihedral twist) = 0 ∧
    dot3 (u_n dihedral twist) (u_s dihedral) = 0 ∧
    dot3 (u_a dihedral twist) (u_s dihedral) =
      2 * Real.sin twist * Real.sin dihedral * Real.cos dihedral ∧
    normSq (u_n dihedral twist) =
      1 - (2 * Real.sin twist * Real.sin dihedral * Real.cos dihedral) ^ 2 := by
  refine ⟨normSq_u_s dihedral, normSq_u_a dihedral twist, ?_, ?_,
    dot3_u_a_u_s dihedral twist, normSq_u_n dihedral twist⟩
  · simp only [dot3, u_n, cross3, u_a, u_s]
    ring
  · simp only [dot3, u_n, cross3, u_a, u_s]
    ring

/-- C3 counterexample: the loop body runs a fixed 251 times, not 30:
with the successor function as loop body and initial value 0, the loop
returns 251, whereas a 30-iteration loop would return 30. -/
theorem C3_counterexample :
    andersonSolveLoop Nat.succ 0 = 251 ∧ andersonSolveLoop Nat.succ 0 ≠ 30 := by
  have h := andersonSolveLoop_eq_iterate Nat.succ 0
  rw [succ_iterate_eq] at h
  constructor
  · rw [h]
  · rw [h]; norm_num

/-- C3 (amended): for every loop body and every initial circulation
proposal, the Anderson solve loop terminates after exactly 251 iterations
(the counter breaks once it exceeds 250), applies the body unconditionally
on every pass — no residual-tolerance stopping rule — and returns the last
iterate. -/
theorem C3_fixed_iteration_count {α : Type} (f : α → α) (gammaProposal : α) :
    andersonSolveLoop f gammaProposal = f^[251] gammaProposal :=
  andersonSolveLoop_eq_iterate f gammaProposal

/-- C4 counterexample: with a Cl array containing a NaN (`[1.0, NaN]`),
the non-finite check of the code returns normally instead of producing a
DivergenceError; the iteration then proceeds with the NaN in place. -/
theorem C4_counterexample :
    andersonClCheck [some 1, none] = Except.ok () ∧
    ∀ e : DivergenceError, andersonClCheck [some 1, none] ≠ Except.error e := by
  refine ⟨andersonClCheck_eq_ok _, fun e h => ?_⟩
  rw [andersonClCheck_eq_ok] at h
  exact Except.noConfusion h

/-- C4 (amended): the anomaly checks of the Anderson iteration (NaN in
`cl`, and local alpha above +15°; there is no −11° lower bound in the code)
only print to the console and then continue: for every input they return
normally and never produce a DivergenceError. -/
theorem C4_checks_never_raise (cl : List (Option ℝ)) (alphas : List ℝ) :
    andersonClCheck cl = Except.ok () ∧
    andersonAlphaCheck alphas = Except.ok () :=
  ⟨andersonClCheck_eq_ok cl, andersonAlphaCheck_eq_ok alphas⟩

/-- C5 (confirmed): for every span position sampled by the cosine
discretization, the initial circulation proposal `Gamma0 * sin(t_k)` equals
the elliptical distribution `Gamma0 * sqrt(1 - (2*y_k/b)^2)`. -/
theorem C5_elliptical_proposal (Gamma0 b : ℝ) (K k : ℕ)
    (hb : b ≠ 0) (hk : k ≤ K) :
    andersonGammaProposal Gamma0 K k =
      Gamma0 * Real.sqrt (1 - (2 * andersonY b K k / b) ^ 2) := by
  have ht0 : 0 ≤ andersonT K k := by
    unfold andersonT
    positivity
  have htpi : andersonT K k ≤ Real.pi := by
    unfold andersonT
    rcases Nat.eq_zero_or_pos K with h | h
    · subst h
      simp [Real.pi_nonneg]
    · rw [div_le_iff₀ (by positivity)]
      have hkK : (k : ℝ) ≤ (K : ℝ) := Nat.cast_le.mpr hk
      nlinarith [Real.pi_pos]
  have h2 : 2 * (-(b / 2) * Real.cos (andersonT K k)) / b =
      -Real.cos (andersonT K k) := by
    field_simp
    ring
  have h3 : 1 - (-Real.cos (andersonT K k)) ^ 2 =
      Real.sin (andersonT K k) ^ 2 := by
    linear_combination (-1 : ℝ) * Real.sin_sq_add_cos_sq (andersonT K k)
  unfold andersonGammaProposal andersonY
  rw [h2, h3, Real.sqrt_sq (Real.sin_nonneg_of_nonneg_of_le_pi ht0 htpi)]

/-- Witness for C5 at `Gamma0 = 1`, `b = 1`, `K = 2`, `k = 1`. -/
theorem C5_elliptical_proposal_witness :
    andersonGammaProposal 1 2 1 =
      1 * Real.sqrt (1 - (2 * andersonY 1 2 1 / 1) ^ 2) :=
  C5_elliptical_proposal 1 1 2 1 (by norm_num) (by omega)

/-- C6 counterexample: the relaxation factor in the code is the literal
`D = 0.05` on every pass: it does not start at 0.1, and it does not
strictly increase from iteration 0 to iteration 1. -/
theorem C6_counterexample :
    andersonOmega 0 = 5 / 100 ∧ andersonOmega 0 ≠ 1 / 10 ∧
    ¬ andersonOmega 0 < andersonOmega 1 := by
  refine ⟨rfl, by norm_num [andersonOmega], by norm_num [andersonOmega]⟩

/-- C6 (amended): every iteration updates the circulation by the
under-relaxed step `Gamma ← Gamma + Ω·(Gamma_new − Gamma)`, but the
relaxation factor Ω is the constant 0.05 at every iteration (assigned
afresh as a literal inside the loop body); it is never annealed and is not
strictly increasing. -/
theorem C6_constant_relaxation (i : ℕ) (gammaProposal gammaNew : ℝ) :
    andersonOmega i = 5 / 100 ∧
    andersonUpdate gammaProposal gammaNew =
      gammaProposal + andersonOmega i * (gammaNew - gammaProposal) :=
  ⟨rfl, rfl⟩

/-- C7 (code bug): at V·normal = 1, V·chordwise = 2 the source computes
`np.arctan(1) = π/4` — the one-argument numpy arctangent, with the second
dot product consumed as the output parameter — while the claimed
`atan2(1, 2) = arctan(1/2)`; the two values differ, so the code does not
compute the two-argument arctangent its own reference (Phillips Eq. 9)
and the spec call for. -/
theorem C7_code_bug_eval :
    phillipsAlpha 1 2 = Real.pi / 4 ∧ atan2 1 2 = Real.arctan (1 / 2) ∧
    phillipsAlpha 1 2 ≠ atan2 1 2 := by
  have h1 : phillipsAlpha 1 2 = Real.pi / 4 := by
    unfold phillipsAlpha
    exact Real.arctan_one
  have h2 : atan2 1 2 = Real.arctan (1 / 2) := by
    unfold atan2
    rw [if_pos (by norm_num : (0 : ℝ) < 2)]
  refine ⟨h1, h2, ?_⟩
  rw [h1, h2]
  have hlt : Real.arctan (1 / 2) < Real.arctan 1 :=
    Real.arctan_strictMono (by norm_num)
  rw [Real.arctan_one] at hlt
  exact ne_of_gt hlt

/-- C8 (confirmed): the simplified non-iterative path computes the force
differential dF from the 2D section Cl and Cd evaluated at the uninduced
local angle of attack — a function of the supplied local wind and the
geometric twist/dihedral only, with no circulation or induced-velocity
input: any two coefficient models that agree at that single angle yield
identical dF, for every wind and geometry. -/
theorem C8_uninduced_forces (Cl Cd Cm Cl' Cd' Cm' : ℝ → ℝ)
    (Gamma theta c uL vL wL rho : ℝ)
    (hCl : Cl (uninducedAlpha Gamma theta uL vL wL) =
      Cl' (uninducedAlpha Gamma theta uL vL wL))
    (hCd : Cd (uninducedAlpha Gamma theta uL vL wL) =
      Cd' (uninducedAlpha Gamma theta uL vL wL)) :
    (section_forces Cl Cd Cm Gamma theta c uL vL wL rho).1 =
      (section_forces Cl' Cd' Cm' Gamma theta c uL vL wL rho).1 := by
  unfold uninducedAlpha at hCl hCd
  simp only [section_forces]
  rw [hCl, hCd]

/-- Witness for C8: two coefficient models with equal Cl and Cd but
different Cm produce the same dF at a concrete flight condition. -/
theorem C8_uninduced_forces_witness :
    (section_forces (fun _ => 1) (fun _ => 2) (fun _ => 3) 0 0 1 1 0 0 1).1 =
      (section_forces (fun _ => 1) (fun _ => 2) (fun _ => 4) 0 0 1 1 0 0 1).1 :=
  C8_uninduced_forces (fun _ => 1) (fun _ => 2) (fun _ => 3)
    (fun _ => 1) (fun _ => 2) (fun _ => 4) 0 0 1 1 0 0 1 rfl rfl

lemma sin_full (x : ℝ) : Real.sin x = 2 * Real.sin (x / 2) * Real.cos (x / 2) := by
  have h := Real.sin_two_mul (x / 2)
  rw [show 2 * (x / 2) = x by ring] at h
  exact h

lemma cos_full (x : ℝ) : Real.cos x = Real.cos (x / 2) ^ 2 - Real.sin (x / 2) ^ 2 := by
  have h := Real.cos_two_mul' (x := x / 2)
  rw [show 2 * (x / 2) = x by ring] at h
  exact h

/-- C9 (confirmed): for every spanwise position `|y| ≤ b/2`, the geometry
functions `chord(y)`, `x(y)`, `z(y)` and the dihedral slope `dfzdy(y)` of
the elliptical wing are well defined — no division by zero and no square
root of a negative number — given valid wing parameters: positive span,
taper strictly between 0 and 1, `sweepMax > 2·sweepMed > 0` and
`dihedralMax > 2·dihedralMed > 0` with both maxima below 90°. -/
theorem C9_geometry_defined (w : EllipticalWing) (y : ℝ)
    (hb : 0 < w.b) (htap0 : 0 < w.taper) (htap1 : w.taper < 1)
    (hsm : 0 < w.sweepMed) (hs2 : 2 * w.sweepMed < w.sweepMax)
    (hsx : w.sweepMax < Real.pi / 2)
    (hdm : 0 < w.dihedralMed) (hd2 : 2 * w.dihedralMed < w.dihedralMax)
    (hdx : w.dihedralMax < Real.pi / 2)
    (hy : |y| ≤ w.b / 2) :
    (fc w y).isSome ∧ (fx w y).isSome ∧ (fz w y).isSome ∧
      (dfzdy w y).isSome := by
  obtain ⟨hts, hts2⟩ := tan_sector w.sweepMed w.sweepMax hsm hs2 hsx
  obtain ⟨htd, htd2⟩ := tan_sector w.dihedralMed w.dihedralMax hdm hd2 hdx
  exact ⟨fc_isSome w y hb htap0 htap1 hy, fx_isSome w y hb hts hts2 hy,
    fz_isSome w y hb htd htd2 hy, dfzdy_isSome w y hb htd htd2 hy⟩

/-- Witness for C9: the wing built from degrees
`dihedralMed = sweepMed = 10`, `dihedralMax = sweepMax = 30`, span `b = 2`,
`taper = 1/2`, evaluated at the tip `y = 1 = b/2`. -/
theorem C9_geometry_defined_witness :
    (fc (mkEllipticalWing 1 1 1 10 30 2 (1 / 2) 10 30 0) 1).isSome ∧
    (fx (mkEllipticalWing 1 1 1 10 30 2 (1 / 2) 10 30 0) 1).isSome ∧
    (fz (mkEllipticalWing 1 1 1 10 30 2 (1 / 2) 10 30 0) 1).isSome ∧
    (dfzdy (mkEllipticalWing 1 1 1 10 30 2 (1 / 2) 10 30 0) 1).isSome :=
  C9_geometry_defined (mkEllipticalWing 1 1 1 10 30 2 (1 / 2) 10 30 0) 1
    (by norm_num [mkEllipticalWing])
    (by norm_num [mkEllipticalWing])
    (by norm_num [mkEllipticalWing])
    (by simp only [mkEllipticalWing, deg2rad]; positivity)
    (by simp only [mkEllipticalWing, deg2rad]; nlinarith [Real.pi_pos])
    (by simp only [mkEllipticalWing, deg2rad]; nlinarith [Real.pi_pos])
    (by simp only [mkEllipticalWing, deg2rad]; positivity)
    (by simp only [mkEllipticalWing, deg2rad]; nlinarith [Real.pi_pos])
    (by simp only [mkEllipticalWing, deg2rad]; nlinarith [Real.pi_pos])
    (by norm_num [mkEllipticalWing])

/-- C10 (confirmed): for every yaw-pitch-roll Euler angle triple, converting
to a quaternion and then to a direction cosine matrix gives exactly the DCM
built directly from the Euler angles:
`quaternion_to_dcm (euler_to_quaternion e) = euler_to_dcm e`. -/
theorem C10_euler_quaternion_dcm_agree (phi theta gamma : ℝ) :
    quaternion_to_dcm (euler_to_quaternion phi theta gamma) =
      euler_to_dcm phi theta gamma := by
  have h1 := Real.sin_sq_add_cos_sq (phi / 2)
  have h2 := Real.sin_sq_add_cos_sq (theta / 2)
  have h3 := Real.sin_sq_add_cos_sq (gamma / 2)
  ext i j
  fin_cases i <;> fin_cases j
  all_goals
    simp [quaternion_to_dcm, euler_to_dcm, euler_to_quaternion, qvec, skew,
      Matrix.one_apply, sin_full phi, cos_full phi, sin_full theta,
      cos_full theta, sin_full gamma, cos_full gamma]
  · linear_combination ((Real.cos (theta / 2) ^ 2 - Real.sin (theta / 2) ^ 2) *
      (Real.cos (gamma / 2) ^ 2 - Real.sin (gamma / 2) ^ 2)) * h1
  · linear_combination (2 * Real.sin (gamma / 2) * Real.cos (gamma / 2) *
      (Real.cos (theta / 2) ^ 2 - Real.sin (theta / 2) ^ 2)) * h1
  · linear_combination (-2 * Real.sin (theta / 2) * Real.cos (theta / 2) *
      (Real.sin (gamma / 2) ^ 2 + Real.cos (gamma / 2) ^ 2)) * h1 +
      (-2 * Real.sin (theta / 2) * Real.cos (theta / 2)) * h3
  · linear_combination (2 * Real.sin (gamma / 2) * Real.cos (gamma / 2) *
      (Real.sin (phi / 2) ^ 2 - Real.cos (phi / 2) ^ 2)) * h2
  · linear_combination ((Real.cos (phi / 2) ^ 2 - Real.sin (phi / 2) ^ 2) *
      (Real.cos (gamma / 2) ^ 2 - Real.sin (gamma / 2) ^ 2)) * h2
  · linear_combination (2 * Real.sin (phi / 2) * Real.cos (phi / 2) *
      (Real.cos (theta / 2) ^ 2 - Real.sin (theta / 2) ^ 2)) * h3
  · linear_combination (4 * Real.sin (phi / 2) * Real.cos (phi / 2) *
      Real.sin (gamma / 2) * Real.cos (gamma / 2)) * h2
  · linear_combination (-2 * Real.sin (phi / 2) * Real.cos (phi / 2) *
      (Real.cos (gamma / 2) ^ 2 - Real.sin (gamma / 2) ^ 2)) * h2
  · linear_combination ((Real.cos (phi / 2) ^ 2 - Real.sin (phi / 2) ^ 2) *
      (Real.cos (theta / 2) ^ 2 - Real.sin (theta / 2) ^ 2)) * h3

end Glidersim
